import Mathlib

/-
Verification of the chart service, auth service and feed adapter of the
music-charts-trend-tracking repository, shallowly embedded in Lean.

Modelling conventions:
- MongoDB stores chart dates as ISO-8601 strings ("YYYY-MM-DD"); since the
  lexicographic order on such strings coincides with calendar order, a date is
  modelled by its day ordinal, a natural number, and the Mongo string
  comparisons of the filters become comparisons on that number.
- The collection is a list of documents; a Mongo query is a filter over it.
- Timestamps produced by datetime.utcnow() are an abstract tick value passed
  in as the parameter `now`.
- Fallible steps are Except / Option values.
-/

namespace MusicCharts

/-- Platform-specific extension data attached to an entry by the router.  In the
source it is an arbitrary JSON value: a mapping merges into the document, while
a non-mapping value makes `entry_dict.update` raise, which we model by the
`malformed` constructor carrying the exception text. -/
inductive PlatformData where
  | dict (kvs : List (String × String))
  | malformed (msg : String)
  deriving Repr, DecidableEq

/-- Embeds schemas/chart.py ChartEntryCreate (plus the `platform_data`
attribute bolted on by the router).  `source` is the enum value string and
`country` defaults to "Global" in the schema. -/
structure ChartEntryCreate where
  date : Nat
  rank : Int
  song : String
  artist : String
  album : Option String := none
  streams : Option Int := none
  duration_ms : Option Int := none
  source : String
  country : String := "Global"
  platform_data : Option PlatformData := none
  deriving Repr, DecidableEq

/-- Embeds a document of the `chart_entries` collection.  `extra` holds the
top-level keys merged from platform data at creation (chart_service.py line 82);
`platform_sub` holds the keys written under the "platform_data." prefix by
`update_entry` (line 270).  A platform key colliding with a schema field would
overwrite it in the source; no claim exercises that corner and the model keeps
the schema fields separate. -/
structure ChartEntryDoc where
  date : Nat
  rank : Int
  song : String
  artist : String
  album : Option String
  streams : Option Int
  duration_ms : Option Int
  source : String
  country : String
  extra : List (String × String)
  platform_sub : List (String × String)
  created_at : Nat
  updated_at : Nat
  deriving Repr, DecidableEq

/-- Embeds one conversion step of the batch loop (chart_service.py lines
73-82): dump the entry, stamp created/updated timestamps, and merge the
top-level platform data; a non-mapping platform value raises and is caught by
the per-entry handler. -/
def toDoc (now : Nat) (e : ChartEntryCreate) : Except String ChartEntryDoc :=
  match e.platform_data with
  | some (.malformed msg) => .error msg
  | some (.dict kvs) =>
      .ok { date := e.date, rank := e.rank, song := e.song, artist := e.artist,
            album := e.album, streams := e.streams, duration_ms := e.duration_ms,
            source := e.source, country := e.country, extra := kvs,
            platform_sub := [], created_at := now, updated_at := now }
  | none =>
      .ok { date := e.date, rank := e.rank, song := e.song, artist := e.artist,
            album := e.album, streams := e.streams, duration_ms := e.duration_ms,
            source := e.source, country := e.country, extra := [],
            platform_sub := [], created_at := now, updated_at := now }

/-- Embeds the duplicate probe of `create_batch` (lines 86-91): `find_one` for
an existing document with the same (date, rank, source, country). -/
def isDuplicate (store : List ChartEntryDoc) (d : ChartEntryDoc) : Bool :=
  store.any fun x =>
    x.date == d.date && x.rank == d.rank && x.source == d.source && x.country == d.country

/-- Accumulator of the batch loop: skip count, error strings, pending documents. -/
structure LoopState where
  skipped : Nat
  errors : List String
  docs : List ChartEntryDoc
  deriving Repr, DecidableEq

/-- Embeds the accumulation loop of `create_batch` (lines 70-99).  `idx` is the
enumeration index used in error messages.  The duplicate probe reads the live
collection, which does not change during the loop: the pending documents are
only inserted afterwards. -/
def createBatchLoop (store : List ChartEntryDoc) (validate : Bool) (now : Nat) :
    Nat → List ChartEntryCreate → LoopState
  | _, [] => ⟨0, [], []⟩
  | idx, e :: rest =>
    let s := createBatchLoop store validate now (idx + 1) rest
    match toDoc now e with
    | .error msg => ⟨s.skipped + 1, ("Entry " ++ toString idx ++ ": " ++ msg) :: s.errors, s.docs⟩
    | .ok d =>
      if validate && isDuplicate store d then ⟨s.skipped + 1, s.errors, s.docs⟩
      else ⟨s.skipped, s.errors, d :: s.docs⟩

/-- Embeds schemas/chart.py BatchResponse. -/
structure BatchResponse where
  imported : Nat
  skipped : Nat
  errors : List String
  deriving Repr, DecidableEq

/-- Embeds `create_batch` (chart_service.py lines 60-113).  `insertOk` models
whether the single `insert_many` bulk call succeeds; on failure (lines 105-107)
nothing is counted imported, the pending documents are added to `skipped` and a
bulk error message is appended (the model keeps the collection unchanged in
that branch).  Returns the response together with the resulting collection. -/
def create_batch (entries : List ChartEntryCreate) (validate insertOk : Bool)
    (now : Nat) (store : List ChartEntryDoc) :
    BatchResponse × List ChartEntryDoc :=
  let s := createBatchLoop store validate now 0 entries
  if s.docs.isEmpty then
    ({ imported := 0, skipped := s.skipped, errors := s.errors }, store)
  else if insertOk then
    ({ imported := s.docs.length, skipped := s.skipped, errors := s.errors }, store ++ s.docs)
  else
    ({ imported := 0, skipped := s.skipped + s.docs.length,
       errors := s.errors ++ ["Batch insert error"] }, store)

/-- Specification view of the batch loop: the documents that convert cleanly
and are not duplicates of the pre-existing collection. -/
def convertedDocs (store : List ChartEntryDoc) (validate : Bool) (now : Nat)
    (es : List ChartEntryCreate) : List ChartEntryDoc :=
  es.filterMap fun e =>
    match toDoc now e with
    | .ok d => if validate && isDuplicate store d then none else some d
    | .error _ => none

/-- Specification view of the per-entry error reports produced by the loop. -/
def convErrors (now : Nat) : Nat → List ChartEntryCreate → List String
  | _, [] => []
  | idx, e :: rest =>
    match toDoc now e with
    | .error msg => ("Entry " ++ toString idx ++ ": " ++ msg) :: convErrors now (idx + 1) rest
    | .ok _ => convErrors now (idx + 1) rest

lemma createBatchLoop_docs (store : List ChartEntryDoc) (validate : Bool) (now : Nat) :
    ∀ (idx : Nat) (es : List ChartEntryCreate),
      (createBatchLoop store validate now idx es).docs = convertedDocs store validate now es
  | _, [] => rfl
  | idx, e :: rest => by
    simp only [createBatchLoop, convertedDocs, List.filterMap_cons]
    cases h : toDoc now e with
    | error msg =>
      simpa [h, convertedDocs] using createBatchLoop_docs store validate now (idx + 1) rest
    | ok d =>
      by_cases hd : validate && isDuplicate store d
      · simpa [h, hd, convertedDocs] using createBatchLoop_docs store validate now (idx + 1) rest
      · simpa [h, hd, convertedDocs] using createBatchLoop_docs store validate now (idx + 1) rest

lemma createBatchLoop_errors (store : List ChartEntryDoc) (validate : Bool) (now : Nat) :
    ∀ (idx : Nat) (es : List ChartEntryCreate),
      (createBatchLoop store validate now idx es).errors = convErrors now idx es
  | _, [] => rfl
  | idx, e :: rest => by
    simp only [createBatchLoop, convErrors]
    cases h : toDoc now e with
    | error msg =>
      simpa [h] using createBatchLoop_errors store validate now (idx + 1) rest
    | ok d =>
      by_cases hd : validate && isDuplicate store d
      · simpa [h, hd] using createBatchLoop_errors store validate now (idx + 1) rest
      · simpa [h, hd] using createBatchLoop_errors store validate now (idx + 1) rest

lemma createBatchLoop_count (store : List ChartEntryDoc) (validate : Bool) (now : Nat) :
    ∀ (idx : Nat) (es : List ChartEntryCreate),
      (createBatchLoop store validate now idx es).skipped
        + (createBatchLoop store validate now idx es).docs.length = es.length
  | _, [] => rfl
  | idx, e :: rest => by
    have ih := createBatchLoop_count store validate now (idx + 1) rest
    simp only [createBatchLoop]
    cases h : toDoc now e with
    | error msg => simp [h]; omega
    | ok d =>
      by_cases hd : validate && isDuplicate store d
      · simp [h, hd]; omega
      · simp [h, hd]; omega

/-- Concrete entries for the import scenarios: rank `r`, song `s`, date
2024-01-01 (modelled by its day ordinal), source "X". -/
def exEntry (r : Int) (s : String) : ChartEntryCreate :=
  { date := 20240101, rank := r, song := s, artist := "a", source := "X" }

/-- Document produced by converting `exEntry 1 "s1"` at tick 0. -/
def exDoc1 : ChartEntryDoc :=
  { date := 20240101, rank := 1, song := "s1", artist := "a", album := none,
    streams := none, duration_ms := none, source := "X", country := "Global",
    extra := [], platform_sub := [], created_at := 0, updated_at := 0 }

/-- C2: with validateDuplicates=true an entry whose (date, rank, source,
country) tuple matches a stored document is counted in `skipped`, not
`imported`, and the collection is unchanged; with validateDuplicates=false the
same entry is counted in `imported` and appended.  Re-submitting a batch of 3
previously imported entries with validation on returns imported 0, skipped 3. -/
theorem create_batch_duplicate_validation :
    (∀ (store : List ChartEntryDoc) (e : ChartEntryCreate) (d : ChartEntryDoc) (now : Nat),
      toDoc now e = Except.ok d → isDuplicate store d = true →
        create_batch [e] true true now store
            = ({ imported := 0, skipped := 1, errors := [] }, store)
          ∧ create_batch [e] false true now store
            = ({ imported := 1, skipped := 0, errors := [] }, store ++ [d]))
    ∧ (create_batch [exEntry 1 "s1", exEntry 2 "s2", exEntry 3 "s3"] true true 0 []).1.imported = 3
    ∧ create_batch [exEntry 1 "s1", exEntry 2 "s2", exEntry 3 "s3"] true true 1
          (create_batch [exEntry 1 "s1", exEntry 2 "s2", exEntry 3 "s3"] true true 0 []).2
        = ({ imported := 0, skipped := 3, errors := [] },
           (create_batch [exEntry 1 "s1", exEntry 2 "s2", exEntry 3 "s3"] true true 0 []).2) := by
  refine ⟨fun store e d now he hd => ?_, by decide, by decide⟩
  constructor
  · simp [create_batch, createBatchLoop, he, hd]
  · simp [create_batch, createBatchLoop, he]

/-- C2 witness: the duplicate branch evaluated at a concrete store and entry. -/
theorem create_batch_duplicate_validation_witness :
    create_batch [exEntry 1 "s1"] true true 0 [exDoc1]
        = ({ imported := 0, skipped := 1, errors := [] }, [exDoc1])
      ∧ create_batch [exEntry 1 "s1"] false true 0 [exDoc1]
        = ({ imported := 1, skipped := 0, errors := [] }, [exDoc1, exDoc1]) :=
  create_batch_duplicate_validation.1 [exDoc1] (exEntry 1 "s1") exDoc1 0 rfl (by decide)

lemma create_batch_insert_succeeds (entries : List ChartEntryCreate)
    (validate : Bool) (now : Nat) (store : List ChartEntryDoc) :
    create_batch entries validate true now store
      = ({ imported := (createBatchLoop store validate now 0 entries).docs.length,
           skipped := (createBatchLoop store validate now 0 entries).skipped,
           errors := (createBatchLoop store validate now 0 entries).errors },
         store ++ (createBatchLoop store validate now 0 entries).docs) := by
  unfold create_batch
  by_cases h0 : (createBatchLoop store validate now 0 entries).docs.isEmpty
  · have h0e := List.isEmpty_iff.mp h0
    simp [h0, h0e]
  · simp [h0]

lemma create_batch_insert_fails (entries : List ChartEntryCreate)
    (validate : Bool) (now : Nat) (store : List ChartEntryDoc) :
    (create_batch entries validate false now store).1.imported = 0
      ∧ (create_batch entries validate false now store).1.skipped
        = (createBatchLoop store validate now 0 entries).skipped
          + (createBatchLoop store validate now 0 entries).docs.length := by
  unfold create_batch
  by_cases h0 : (createBatchLoop store validate now 0 entries).docs.isEmpty
  · have h0e := List.isEmpty_iff.mp h0
    simp [h0, h0e]
  · simp [h0]

/-- C9: every `create_batch` call counts each submitted entry exactly once:
imported + skipped equals the number of submitted entries, whether an entry is
inserted, skipped as a duplicate, dropped by a conversion error, or swept into
`skipped` by a bulk-insert failure. -/
theorem create_batch_counts_partition (entries : List ChartEntryCreate)
    (validate insertOk : Bool) (now : Nat) (store : List ChartEntryDoc) :
    (create_batch entries validate insertOk now store).1.imported
      + (create_batch entries validate insertOk now store).1.skipped
      = entries.length := by
  have hc := createBatchLoop_count store validate now 0 entries
  cases insertOk with
  | true => rw [create_batch_insert_succeeds]; simp; omega
  | false =>
    obtain ⟨h1, h2⟩ := create_batch_insert_fails entries validate now store
    omega

/-- C7: a per-entry conversion failure is caught individually: the returned
errors list carries one report per failing entry, while every sibling that
converts cleanly and is not a duplicate of the pre-existing collection is still
inserted by the bulk write. -/
theorem create_batch_error_isolation (entries : List ChartEntryCreate)
    (now : Nat) (store : List ChartEntryDoc) :
    create_batch entries true true now store
      = ({ imported := (convertedDocs store true now entries).length,
           skipped := entries.length - (convertedDocs store true now entries).length,
           errors := convErrors now 0 entries },
         store ++ convertedDocs store true now entries) := by
  have hd := createBatchLoop_docs store true now 0 entries
  have he := createBatchLoop_errors store true now 0 entries
  have hc := createBatchLoop_count store true now 0 entries
  rw [create_batch_insert_succeeds, hd, he]
  have hsk : (createBatchLoop store true now 0 entries).skipped
      = entries.length - (convertedDocs store true now entries).length := by
    rw [← hd]; omega
  rw [hsk]

/-- C10: duplicate detection only consults documents already in the collection
before the call: a single batch holding two entries with the same
(date, rank, source, country) tuple, neither matching a stored document,
inserts both. -/
theorem create_batch_intra_batch_duplicates
    (store : List ChartEntryDoc) (e₁ e₂ : ChartEntryCreate) (d₁ d₂ : ChartEntryDoc) (now : Nat)
    (h₁ : toDoc now e₁ = Except.ok d₁) (h₂ : toDoc now e₂ = Except.ok d₂)
    (hdate : d₁.date = d₂.date) (hrank : d₁.rank = d₂.rank)
    (hsource : d₁.source = d₂.source) (hcountry : d₁.country = d₂.country)
    (hs₁ : isDuplicate store d₁ = false) (hs₂ : isDuplicate store d₂ = false) :
    create_batch [e₁, e₂] true true now store
      = ({ imported := 2, skipped := 0, errors := [] }, store ++ [d₁, d₂]) := by
  simp [create_batch, createBatchLoop, h₁, h₂, hs₁, hs₂]

/-- C10 witness: two same-tuple entries in one batch over the empty collection
are both inserted. -/
theorem create_batch_intra_batch_duplicates_witness :
    create_batch [exEntry 1 "s1", exEntry 1 "s2"] true true 0 []
      = ({ imported := 2, skipped := 0, errors := [] },
         [exDoc1, { exDoc1 with song := "s2" }]) :=
  create_batch_intra_batch_duplicates [] (exEntry 1 "s1") (exEntry 1 "s2")
    exDoc1 { exDoc1 with song := "s2" } 0 rfl rfl rfl rfl rfl rfl rfl rfl

/-- Embeds the Mongo date condition assembled by `get_entries_direct`
(chart_service.py lines 130-140). -/
inductive DateCond where
  | noneC
  | eqC (d : Nat)
  | geC (lo : Nat)
  | leC (hi : Nat)
  | betweenC (lo hi : Nat)
  deriving Repr, DecidableEq

/-- Embeds lines 131-140: a single date takes precedence, otherwise the
supplied range bounds are used. -/
def buildDateCond : Option Nat → Option Nat → Option Nat → DateCond
  | some d, _, _ => .eqC d
  | none, some lo, some hi => .betweenC lo hi
  | none, some lo, none => .geC lo
  | none, none, some hi => .leC hi
  | none, none, none => .noneC

/-- Mongo evaluation of the date condition against a stored date ($gte/$lte on
ISO strings, which is calendar order). -/
def evalDateCond : DateCond → Nat → Bool
  | .noneC, _ => true
  | .eqC d, x => x == d
  | .geC lo, x => decide (lo ≤ x)
  | .leC hi, x => decide (x ≤ hi)
  | .betweenC lo hi, x => decide (lo ≤ x) && decide (x ≤ hi)

/-- Embeds the artist condition of line 147, a case-insensitive regex match;
for the plain-text patterns the service is used with, this is a
case-insensitive substring test, which is how we model it. -/
def artistMatches (pat s : String) : Bool :=
  decide (pat.toLower.toList <:+: s.toLower.toList)

/-- Embeds the full filter document of lines 130-147.  The source skips a
filter whose value is falsy; `none` models an absent (or empty-string)
parameter. -/
def matchesFilter (dc : DateCond) (src country artist : Option String)
    (d : ChartEntryDoc) : Bool :=
  evalDateCond dc d.date
  && (match src with | some s => d.source == s | none => true)
  && (match country with | some c => d.country == c | none => true)
  && (match artist with | some a => artistMatches a d.artist | none => true)

/-- Embeds `get_entries_direct` (chart_service.py lines 115-165).  pymongo
cursors keep a single sort specification and a second `sort` call replaces the
first, so line 149, `.sort("date", -1).sort("rank", 1)`, sorts by rank
ascending only; `skip(offset).limit(limit)` then paginates.  Order among equal
ranks is unspecified server-side; the model uses a stable sort. -/
def get_entries_direct (limit offset : Nat)
    (filter_date date_from date_to : Option Nat)
    (source country artist : Option String)
    (store : List ChartEntryDoc) : List ChartEntryDoc :=
  let filtered := store.filter
    (matchesFilter (buildDateCond filter_date date_from date_to) source country artist)
  let sorted := filtered.insertionSort (fun a b => a.rank ≤ b.rank)
  (sorted.drop offset).take limit

/-- Stored documents witnessing the sort defect: an older date at a better
rank and a newer date at a worse rank. -/
def oldTopDoc : ChartEntryDoc :=
  { date := 20240101, rank := 1, song := "old", artist := "a1", album := none,
    streams := none, duration_ms := none, source := "X", country := "Global",
    extra := [], platform_sub := [], created_at := 0, updated_at := 0 }

def newLowDoc : ChartEntryDoc :=
  { date := 20240102, rank := 2, song := "new", artist := "a2", album := none,
    streams := none, duration_ms := none, source := "X", country := "Global",
    extra := [], platform_sub := [], created_at := 0, updated_at := 0 }

/-- C1: contrary to the claim, query results are not ordered date-descending:
with two stored entries, rank 1 on the older date and rank 2 on the newer one,
the unfiltered query returns the older entry first, because the second pymongo
`sort` call replaces the first and only rank ascending is applied. -/
theorem get_entries_sort_replacement_defect :
    get_entries_direct 100 0 none none none none none none [oldTopDoc, newLowDoc]
        = [oldTopDoc, newLowDoc]
      ∧ oldTopDoc.date < newLowDoc.date := by
  constructor
  · rfl
  · decide

/-- C4: an exact date dominates the filter assembly: the produced date
condition, and hence the whole query result, is independent of any supplied
range, and when no exact date is given the optional range bounds are applied
as the corresponding inequalities. -/
theorem date_filter_precedence :
    (∀ (limit offset d : Nat) (df dt : Option Nat) (src c a : Option String)
        (store : List ChartEntryDoc),
      get_entries_direct limit offset (some d) df dt src c a store
        = get_entries_direct limit offset (some d) none none src c a store)
    ∧ (∀ (d : Nat) (df dt : Option Nat), buildDateCond (some d) df dt = .eqC d)
    ∧ (∀ lo hi x : Nat, evalDateCond (buildDateCond none (some lo) (some hi)) x
        = (decide (lo ≤ x) && decide (x ≤ hi)))
    ∧ (∀ lo x : Nat, evalDateCond (buildDateCond none (some lo) none) x = decide (lo ≤ x))
    ∧ (∀ hi x : Nat, evalDateCond (buildDateCond none none (some hi)) x = decide (x ≤ hi))
    ∧ (∀ x : Nat, evalDateCond (buildDateCond none none none) x = true) :=
  ⟨fun _ _ _ _ _ _ _ _ _ => rfl, fun _ _ _ => rfl, fun _ _ _ => rfl,
   fun _ _ => rfl, fun _ _ => rfl, fun _ => rfl⟩

/-- Embeds schemas/chart.py ChartEntryUpdate plus the bolted-on platform data:
a `none` field was not supplied and is excluded by
`model_dump(exclude_unset=True)`; the platform list is empty when the attribute
is missing or falsy. -/
structure ChartEntryUpdate where
  rank : Option Int := none
  song : Option String := none
  artist : Option String := none
  album : Option String := none
  streams : Option Int := none
  duration_ms : Option Int := none
  source : Option String := none
  country : Option String := none
  platform_data : List (String × String) := []
  deriving Repr, DecidableEq

/-- Holds exactly when `update_data.model_dump(exclude_unset=True)` is the
empty dict (chart_service.py line 265, `not update_dict`). -/
def ChartEntryUpdate.scalarEmpty (u : ChartEntryUpdate) : Bool :=
  u.rank.isNone && u.song.isNone && u.artist.isNone && u.album.isNone
    && u.streams.isNone && u.duration_ms.isNone && u.source.isNone && u.country.isNone

/-- Mongo $set on one key of the platform subdocument. -/
def setKey (m : List (String × String)) (k v : String) : List (String × String) :=
  if m.any (·.1 == k) then m.map (fun p => if p.1 == k then (k, v) else p)
  else m ++ [(k, v)]

def setKeys : List (String × String) → List (String × String) → List (String × String)
  | m, [] => m
  | m, (k, v) :: rest => setKeys (setKey m k v) rest

/-- Embeds the $set document of lines 268-276: supplied scalar fields
overwrite, platform keys merge per-key under the "platform_data." prefix, and
`updated_at` is stamped. -/
def applyUpdate (u : ChartEntryUpdate) (now : Nat) (d : ChartEntryDoc) : ChartEntryDoc :=
  { d with
    rank := u.rank.getD d.rank
    song := u.song.getD d.song
    artist := u.artist.getD d.artist
    album := match u.album with | some v => some v | none => d.album
    streams := match u.streams with | some v => some v | none => d.streams
    duration_ms := match u.duration_ms with | some v => some v | none => d.duration_ms
    source := u.source.getD d.source
    country := u.country.getD d.country
    platform_sub := setKeys d.platform_sub u.platform_data
    updated_at := now }

/-- Embeds `update_entry` (chart_service.py lines 251-292).  An ObjectId
lookup selects at most one document; the model identifies a document by its
position in the collection, with `eid = none` standing for a malformed
identifier whose InvalidId/TypeError is caught (lines 291-292).  The empty
no-op check of line 265 runs before the lookup.  Returns the updated document
(or the not-found sentinel) and the resulting collection. -/
def update_entry (store : List ChartEntryDoc) (eid : Option Nat)
    (u : ChartEntryUpdate) (now : Nat) : Option ChartEntryDoc × List ChartEntryDoc :=
  if u.scalarEmpty && u.platform_data.isEmpty then (none, store)
  else
    match eid with
    | none => (none, store)
    | some i =>
      match store[i]? with
      | none => (none, store)
      | some d =>
        let d₂ := applyUpdate u now d
        (some d₂, store.set i d₂)

/-- C5: an update carrying no scalar field and no platform data returns the
not-found sentinel and leaves the collection untouched, in particular the
stored `updated_at`. -/
theorem update_entry_empty_noop (store : List ChartEntryDoc) (eid : Option Nat)
    (u : ChartEntryUpdate) (now : Nat)
    (hs : u.scalarEmpty = true) (hp : u.platform_data = []) :
    update_entry store eid u now = (none, store) := by
  simp [update_entry, hs, hp]

/-- C5 witness: the all-unset update applied to a one-document collection. -/
theorem update_entry_empty_noop_witness :
    update_entry [oldTopDoc] (some 0) {} 9 = (none, [oldTopDoc]) :=
  update_entry_empty_noop [oldTopDoc] (some 0) {} 9 (by decide) rfl

/-- Group document produced by the $group stage of `get_trend_analysis`
(chart_service.py lines 323-331): one record per artist of the window. -/
structure TrendGroup where
  artist : String
  appearances : Nat
  avg_rank : ℚ
  best_rank : Int
  worst_rank : Int
  total_streams : Int
  songs : List (String × Int × Nat)
  deriving Repr, DecidableEq

/-- Embeds the $match stage (lines 317-319): date at least today minus days,
optionally an exact source. -/
def windowEntries (today days : Nat) (src : Option String)
    (store : List ChartEntryDoc) : List ChartEntryDoc :=
  store.filter fun d =>
    decide (today - days ≤ d.date)
      && (match src with | some s => d.source == s | none => true)

def listMinI : List Int → Int
  | [] => 0
  | r :: rs => rs.foldl min r

def listMaxI : List Int → Int
  | [] => 0
  | r :: rs => rs.foldl max r

/-- Embeds the accumulators of the $group stage for one artist: count, mean
rank as an exact rational (Mongo computes a double), min/max rank, the
stream sum ($sum skips missing values), and the pushed (song, rank, date)
tuples. -/
def groupFor (es : List ChartEntryDoc) (a : String) : TrendGroup :=
  let mine := es.filter (fun d => d.artist == a)
  { artist := a
    appearances := mine.length
    avg_rank := ((mine.map (·.rank)).sum : ℚ) / (mine.length : ℚ)
    best_rank := listMinI (mine.map (·.rank))
    worst_rank := listMaxI (mine.map (·.rank))
    total_streams := (mine.filterMap (·.streams)).sum
    songs := mine.map fun d => (d.song, d.rank, d.date) }

/-- Embeds the $group stage over the window: one group per distinct artist.
Mongo emits groups in unspecified order; the subsequent $sort makes the claims
independent of the linearization chosen here. -/
def trendGroups (today days : Nat) (src : Option String)
    (store : List ChartEntryDoc) : List TrendGroup :=
  let w := windowEntries today days src store
  ((w.map (·.artist)).dedup).map (groupFor w)

/-- Sort key of the $sort stage (line 333): appearances descending, then mean
rank ascending. -/
def trendLE (g₁ g₂ : TrendGroup) : Prop :=
  g₂.appearances < g₁.appearances
    ∨ (g₁.appearances = g₂.appearances ∧ g₁.avg_rank ≤ g₂.avg_rank)

instance : DecidableRel trendLE := fun a b => by
  unfold trendLE; infer_instance

instance : IsTotal TrendGroup trendLE where
  total a b := by
    rcases Nat.lt_trichotomy a.appearances b.appearances with h | h | h
    · exact Or.inr (Or.inl h)
    · rcases le_total a.avg_rank b.avg_rank with hq | hq
      · exact Or.inl (Or.inr ⟨h, hq⟩)
      · exact Or.inr (Or.inr ⟨h.symm, hq⟩)
    · exact Or.inl (Or.inl h)

instance : IsTrans TrendGroup trendLE where
  trans a b c hab hbc := by
    rcases hab with h₁ | ⟨e₁, l₁⟩ <;> rcases hbc with h₂ | ⟨e₂, l₂⟩
    · exact Or.inl (h₂.trans h₁)
    · exact Or.inl (e₂ ▸ h₁)
    · exact Or.inl (e₁ ▸ h₂)
    · exact Or.inr ⟨e₁.trans e₂, l₁.trans l₂⟩

/-- Embeds the pipeline tail (lines 332-335): keep groups with at least
`minApp` appearances, sort by the trend key, cap at 50. -/
def trendPipeline (today days : Nat) (src : Option String) (minApp : Nat)
    (store : List ChartEntryDoc) : List TrendGroup :=
  (((trendGroups today days src store).filter
      (fun g => decide (minApp ≤ g.appearances))).insertionSort trendLE).take 50

/-- Response record assembled per group (lines 337-360). -/
structure TrendResult where
  artist : String
  period_days : Nat
  total_appearances : Nat
  average_rank : ℚ
  best_rank : Int
  worst_rank : Int
  total_streams : Int
  trending_score : ℚ
  top_songs : List (String × Int × Nat)
  chart_history : List (String × Int × Nat)
  deriving Repr, DecidableEq

/-- Rounding to two decimals as applied by the source.  Python rounds exact
halves to even while `round` here rounds them up; no claim touches a half
tie. -/
def round2 (q : ℚ) : ℚ := ((round (q * 100) : ℤ) : ℚ) / 100

/-- Sort key for the top-songs extract: rank ascending. -/
def songLE (s₁ s₂ : String × Int × Nat) : Prop := s₁.2.1 ≤ s₂.2.1

instance : DecidableRel songLE := fun a b => by
  unfold songLE; infer_instance

/-- Embeds the per-group response assembly (lines 339-359): trending score is
appearances over mean rank guarded against a zero mean, top songs are the five
best-ranked, history the first twenty tuples. -/
def toTrendResult (days : Nat) (g : TrendGroup) : TrendResult :=
  { artist := g.artist
    period_days := days
    total_appearances := g.appearances
    average_rank := round2 g.avg_rank
    best_rank := g.best_rank
    worst_rank := g.worst_rank
    total_streams := g.total_streams
    trending_score := if 0 < g.avg_rank then round2 ((g.appearances : ℚ) / g.avg_rank) else 0
    top_songs := (g.songs.insertionSort songLE).take 5
    chart_history := g.songs.take 20 }

/-- Embeds `get_trend_analysis` (chart_service.py lines 306-362); `today` is
the value of `date.today()`. -/
def get_trend_analysis (today days : Nat) (src : Option String) (minApp : Nat)
    (store : List ChartEntryDoc) : List TrendResult :=
  (trendPipeline today days src minApp store).map (toTrendResult days)

/-- Number of window entries credited to one artist. -/
def countArtistWindow (today days : Nat) (src : Option String)
    (store : List ChartEntryDoc) (a : String) : Nat :=
  ((windowEntries today days src store).filter (fun d => d.artist == a)).length

lemma trendGroups_appearances {today days : Nat} {src : Option String}
    {store : List ChartEntryDoc} {g : TrendGroup}
    (hg : g ∈ trendGroups today days src store) :
    g.appearances = countArtistWindow today days src store g.artist := by
  simp only [trendGroups, List.mem_map] at hg
  obtain ⟨a, _, rfl⟩ := hg
  rfl

/-- C3: the trend analysis excludes every artist with fewer than `minApp`
window appearances, delivers at most 50 artists, orders the surviving groups
by appearance count descending then mean rank ascending, and is the image of
that sorted group list under the response assembly. -/
theorem trend_analysis_shape (today days : Nat) (src : Option String)
    (minApp : Nat) (store : List ChartEntryDoc) :
    (∀ a : String, countArtistWindow today days src store a < minApp →
        a ∉ (get_trend_analysis today days src minApp store).map (·.artist))
    ∧ (get_trend_analysis today days src minApp store).length ≤ 50
    ∧ List.Sorted trendLE (trendPipeline today days src minApp store)
    ∧ get_trend_analysis today days src minApp store
        = (trendPipeline today days src minApp store).map (toTrendResult days) := by
  refine ⟨?_, ?_, ?_, rfl⟩
  · intro a hlt hmem
    simp only [get_trend_analysis, List.map_map, List.mem_map, Function.comp] at hmem
    obtain ⟨g, hg, hga⟩ := hmem
    have hg₂ : g ∈ ((trendGroups today days src store).filter
        (fun g => decide (minApp ≤ g.appearances))).insertionSort trendLE := by
      exact List.mem_of_mem_take hg
    rw [List.mem_insertionSort] at hg₂
    rw [List.mem_filter] at hg₂
    obtain ⟨hgrp, hcnt⟩ := hg₂
    have happ := trendGroups_appearances hgrp
    have hga₂ : g.artist = a := hga
    simp only [decide_eq_true_eq] at hcnt
    rw [happ, hga₂] at hcnt
    omega
  · simpa [get_trend_analysis, trendPipeline] using
      Nat.le_of_eq_of_le (List.length_take _ _) (Nat.min_le_left _ _)
  · exact List.Pairwise.sublist (List.take_sublist _ _)
      (List.sorted_insertionSort trendLE _)

/-- C3 witness: with the two stored rank entries each artist appears once, so
a threshold of two excludes artist a1 from the analysis. -/
theorem trend_analysis_shape_witness :
    "a1" ∉ (get_trend_analysis 20240102 30 none 2 [oldTopDoc, newLowDoc]).map (·.artist) :=
  (trend_analysis_shape 20240102 30 none 2 [oldTopDoc, newLowDoc]).1 "a1" (by decide)

/-- Embeds models/user.py UserRole. -/
inductive UserRole where
  | admin
  | editor
  | viewer
  deriving Repr, DecidableEq

def UserRole.value : UserRole → String
  | .admin => "admin"
  | .editor => "editor"
  | .viewer => "viewer"

/-- Embeds the credential-store User row (models/user.py). -/
structure User where
  id : Nat
  username : String
  email : String
  hashed_password : String
  role : UserRole
  is_active : Bool
  deriving Repr, DecidableEq

/-- Claim set carried by a decoded token: the `type` discriminator, the
subject and the numeric user id. -/
structure TokenPayload where
  type : String
  sub : String
  user_id : Nat
  deriving Repr, DecidableEq

/-- Modelled from the spec: the token codec of `app.core.security` is not
under src/.  Per spec section 4.2 a signed token decodes to its claim set or
fails uniformly on signature mismatch, malformed structure or past expiry; a
token is therefore abstracted by its decode outcome. -/
inductive Token where
  | invalid
  | valid (p : TokenPayload)
  deriving Repr, DecidableEq

/-- Modelled from the spec: `decode_token` of `app.core.security` (not under
src/) returns the claim set, or the None that auth_service.py line 98 tests. -/
def decode_token : Token → Option TokenPayload
  | .invalid => none
  | .valid p => some p

/-- Token pair returned by `create_tokens`, recorded by the claims embedded in
each member (the signing itself, in `app.core.security`, is not under src/ and
is modelled from spec section 4.1: the access token carries subject, role and
user id, the refresh token subject and user id). -/
structure TokenPair where
  access_sub : String
  access_role : String
  access_user_id : Nat
  refresh_sub : String
  refresh_user_id : Nat
  token_type : String
  expires_in : Nat
  deriving Repr, DecidableEq

/-- Embeds `create_tokens` (auth_service.py lines 76-92); the expiry constant
is ACCESS_TOKEN_EXPIRE_MINUTES = 30 from config.py, reported in seconds. -/
def create_tokens (u : User) : TokenPair :=
  { access_sub := u.username
    access_role := u.role.value
    access_user_id := u.id
    refresh_sub := u.username
    refresh_user_id := u.id
    token_type := "bearer"
    expires_in := 30 * 60 }

/-- Embeds `refresh_access_token` (auth_service.py lines 94-112); the
credential store is the list of user rows and the lookup is the first row with
the matching username (unique by schema). -/
def refresh_access_token (tok : Token) (db : List User) : Except String TokenPair :=
  match decode_token tok with
  | none => .error "Invalid refresh token"
  | some p =>
    if p.type ≠ "refresh" then .error "Invalid refresh token"
    else
      match db.find? (fun u => u.username == p.sub) with
      | none => .error "Invalid refresh token"
      | some u =>
        if u.is_active then .ok (create_tokens u)
        else .error "Invalid refresh token"

/-- C6: refresh fails with the invalid-token error exactly when the token does
not verify, its type tag is not "refresh", or its subject does not resolve to
an active user; in every other case it returns the freshly issued pair for the
resolved user. -/
theorem refresh_token_validity (tok : Token) (db : List User) :
    (refresh_access_token tok db = .error "Invalid refresh token" ↔
      (decode_token tok = none
        ∨ ∃ p, decode_token tok = some p
            ∧ (p.type ≠ "refresh"
                ∨ db.find? (fun u => u.username == p.sub) = none
                ∨ ∃ u, db.find? (fun v => v.username == p.sub) = some u
                    ∧ u.is_active = false)))
    ∧ (∀ (p : TokenPayload) (u : User),
        decode_token tok = some p → p.type = "refresh" →
        db.find? (fun v => v.username == p.sub) = some u → u.is_active = true →
        refresh_access_token tok db = .ok (create_tokens u)) := by
  constructor
  · constructor
    · intro herr
      cases htok : decode_token tok with
      | none => exact Or.inl rfl
      | some p =>
        by_cases hty : p.type = "refresh"
        · cases hu : db.find? (fun u => u.username == p.sub) with
          | none => exact Or.inr ⟨p, rfl, Or.inr (Or.inl hu)⟩
          | some u =>
            cases hact : u.is_active with
            | true => simp [refresh_access_token, htok, hty, hu, hact] at herr
            | false => exact Or.inr ⟨p, rfl, Or.inr (Or.inr ⟨u, hu, hact⟩)⟩
        · exact Or.inr ⟨p, rfl, Or.inl hty⟩
    · intro hcond
      rcases hcond with h | ⟨p, hp, hty | hu | ⟨u, hu, hact⟩⟩
      · simp [refresh_access_token, h]
      · simp [refresh_access_token, hp, hty]
      · simp [refresh_access_token, hp, hu]
      · simp [refresh_access_token, hp, hu, hact]
  · intro p u hp hty hu hact
    simp [refresh_access_token, hp, hty, hu, hact]

/-- C6 witness: a verifiable refresh token for an active stored user rotates
into a fresh pair for that user. -/
theorem refresh_token_validity_witness :
    refresh_access_token
        (Token.valid { type := "refresh", sub := "alice", user_id := 1 })
        [{ id := 1, username := "alice", email := "alice@x", hashed_password := "h",
           role := UserRole.viewer, is_active := true }]
      = Except.ok (create_tokens
          { id := 1, username := "alice", email := "alice@x", hashed_password := "h",
            role := UserRole.viewer, is_active := true }) :=
  (refresh_token_validity
      (Token.valid { type := "refresh", sub := "alice", user_id := 1 })
      [{ id := 1, username := "alice", email := "alice@x", hashed_password := "h",
         role := UserRole.viewer, is_active := true }]).2
    { type := "refresh", sub := "alice", user_id := 1 }
    { id := 1, username := "alice", email := "alice@x", hashed_password := "h",
      role := UserRole.viewer, is_active := true }
    rfl rfl (by decide) rfl

/-- Raw item of the iTunes RSS feed as seen by the mapping loop of
`fetch_itunes_top_songs`: either the labels the loop extracts, or a malformed
item whose field access raises inside the per-item try. -/
inductive FeedItem where
  | item (name artist album itunesId itunesUrl category releaseDate : String)
  | malformed (msg : String)
  deriving Repr, DecidableEq

/-- Embeds the per-item mapping (external_api_service.py lines 36-60): a chart
entry for today at the enumeration index as rank, tagged Apple Music, country
upper-cased, platform details attached. -/
def mapFeedItem (today : Nat) (country : String) (idx : Nat) :
    FeedItem → Except String ChartEntryCreate
  | .item name artist album iid iurl cat rd =>
      .ok { date := today, rank := (idx : Int), song := name, artist := artist,
            album := some album, source := "Apple Music", country := country.toUpper,
            platform_data := some (.dict
              [("itunes_id", iid), ("itunes_url", iurl),
               ("category", cat), ("release_date", rd)]) }
  | .malformed msg => .error msg

/-- Embeds the mapping loop (lines 36-60): a failing item is skipped and the
loop continues with the next; the enumeration index advances regardless. -/
def mapSongs (today : Nat) (country : String) : Nat → List FeedItem → List ChartEntryCreate
  | _, [] => []
  | idx, s :: rest =>
    match mapFeedItem today country idx s with
    | .ok e => e :: mapSongs today country (idx + 1) rest
    | .error _ => mapSongs today country (idx + 1) rest

/-- Embeds `fetch_itunes_top_songs` (external_api_service.py lines 13-68).
The HTTP interaction is the parameter `response`: `none` when the request
raises (transport failure, timeout), otherwise the status code with the parsed
feed entries.  Only a 200 response is mapped, starting at rank 1 over the
first `limit` items. -/
def fetch_itunes_top_songs (country : String) (limit : Nat) (today : Nat)
    (response : Option (Nat × List FeedItem)) : List ChartEntryCreate :=
  match response with
  | none => []
  | some (status, songs) =>
    if status = 200 then mapSongs today country 1 (songs.take limit) else []

/-- Enumeration of a list starting at a given index. -/
def enumOffset (n : Nat) : List α → List (Nat × α)
  | [] => []
  | a :: rest => (n, a) :: enumOffset (n + 1) rest

lemma mapSongs_filterMap (today : Nat) (country : String) :
    ∀ (idx : Nat) (items : List FeedItem),
      mapSongs today country idx items
        = (enumOffset idx items).filterMap
            (fun p => (mapFeedItem today country p.1 p.2).toOption)
  | _, [] => rfl
  | idx, s :: rest => by
    simp only [mapSongs, enumOffset, List.filterMap_cons]
    cases h : mapFeedItem today country idx s with
    | ok e => simp [h, Except.toOption, mapSongs_filterMap today country (idx + 1) rest]
    | error msg => simp [h, Except.toOption, mapSongs_filterMap today country (idx + 1) rest]

/-- C8: the feed adapter returns an empty list on transport failure and on any
non-200 response, and otherwise maps the first `limit` items in order,
dropping exactly the items whose mapping fails while every later item is still
mapped. -/
theorem feed_adapter_behavior (country : String) (limit today status : Nat)
    (songs : List FeedItem) :
    fetch_itunes_top_songs country limit today none = []
    ∧ fetch_itunes_top_songs country limit today (some (status, songs))
        = (if status = 200
            then (enumOffset 1 (songs.take limit)).filterMap
              (fun p => (mapFeedItem today country p.1 p.2).toOption)
            else []) := by
  refine ⟨rfl, ?_⟩
  by_cases h : status = 200
  · simp [fetch_itunes_top_songs, h, mapSongs_filterMap]
  · simp [fetch_itunes_top_songs, h]

end MusicCharts
